import Mathlib

/-!
Verification development for the dentalClinicBot repository.

The embedding translates `src/server.js` (ingress endpoint, BullMQ queue
wiring, worker, escalation handler) and `src/isiclinic.js` (Playwright
automation session) into executable Lean definitions.  Effectful browser
steps are modelled by a `World` record giving the outcome of each external
interaction; the functions thread an explicit `Trace` of observable side
effects (fills performed, screenshot attempts, browser closes).
-/

/-- A JavaScript value as it appears in a patient payload field:
`undefined` (absent property), a string, or a number. -/
inductive JSVal where
  | undefined : JSVal
  | vstr : String → JSVal
  | vnum : Int → JSVal
deriving DecidableEq, Repr

/-- JavaScript truthiness for the values a payload field can hold:
`undefined`, `""` and `0` are falsy, everything else truthy. -/
def JSVal.truthy : JSVal → Bool
  | .undefined => false
  | .vstr s => s != ""
  | .vnum n => n != 0

/-- String conversion as JavaScript performs in template literals and
`String(x)`. -/
def JSVal.jsToString : JSVal → String
  | .undefined => "undefined"
  | .vstr s => s
  | .vnum n => toString n

/-- A request body / job payload: a JS object seen as an ordered list of
key-value pairs (`req.body` after `express.json()`). -/
abbrev Payload := List (String × JSVal)

/-- Property access `datos.key`: the value bound to the first occurrence of
`key`, or `undefined` when absent. -/
def getField : Payload → String → JSVal
  | [], _ => .undefined
  | (k, v) :: rest, key => if k = key then v else getField rest key

/-- Whether the object has an own property named `key`
(membership in `Object.keys`). -/
def hasKey : Payload → String → Bool
  | [], _ => false
  | (k, _) :: rest, key => k == key || hasKey rest key

/-- `Object.keys(datos).length === 0`: the object has no properties. -/
def isEmptyPayload (p : Payload) : Bool :=
  match p with
  | [] => true
  | _ :: _ => false

/-- A JavaScript `Error`, identified by its message (`err.message`). -/
structure JsError where
  message : String
deriving DecidableEq, Repr

/-- JSON rendering of one payload value (`JSON.stringify` on a leaf). -/
def jsonValue : JSVal → String
  | .undefined => "undefined"
  | .vstr s => "\"" ++ s ++ "\""
  | .vnum n => toString n

/-- The pretty-printed member lines of `JSON.stringify(obj, null, 2)`;
properties bound to `undefined` are omitted, as `JSON.stringify` does. -/
def jsonPairs : Payload → List String
  | [] => []
  | (k, v) :: rest =>
    match v with
    | .undefined => jsonPairs rest
    | v => ("  \"" ++ k ++ "\": " ++ jsonValue v) :: jsonPairs rest

/-- `JSON.stringify(datos, null, 2)` as used for the escalation message. -/
def jsonStringify (p : Payload) : String :=
  match jsonPairs p with
  | [] => "\x7b\x7d"
  | ls => "\x7b\n" ++ String.intercalate ",\n" ls ++ "\n\x7d"

/-- The per-job options object passed to `pacienteQueue.add` in
`src/server.js`. -/
structure JobOpts where
  attempts : Nat
  backoffType : String
  backoffDelay : Nat
  removeOnComplete : Bool
  removeOnFail : Nat
deriving DecidableEq, Repr

/-- The literal options of `pacienteQueue.add('nuevo-paciente', datos, ...)`
in `src/server.js`: `attempts: 3`, exponential backoff with `delay: 5000`,
`removeOnComplete: true`, `removeOnFail: 50`. -/
def pacienteJobOpts : JobOpts :=
  { attempts := 3
    backoffType := "exponential"
    backoffDelay := 5000
    removeOnComplete := true
    removeOnFail := 50 }

/-- Modelled from the spec: the queue library is an external collaborator,
whose documented exponential backoff schedules the delay before retry `k`
(the retry after the `k`-th failed attempt) as `delay * 2 ^ (k - 1)`
(spec §4.1: 5s, 10s, 20s, ...). -/
def backoffDelayFor (o : JobOpts) (k : Nat) : Nat :=
  if o.backoffType = "exponential" then o.backoffDelay * 2 ^ (k - 1)
  else o.backoffDelay

/-- A BullMQ job as seen by the `worker.on('failed')` handler. -/
structure QueueJob where
  id : String
  name : String
  data : Payload
  opts : JobOpts
  attemptsMade : Nat
deriving DecidableEq, Repr

/-- The interpolation of `job.data.nombre || 'N/A'` in the alert text:
the `nombre` payload field when truthy, else `N/A`. -/
def nombreOrNA (data : Payload) : String :=
  if (getField data "nombre").truthy then (getField data "nombre").jsToString
  else "N/A"

/-- Fixed fragment of the alert template before the job id. -/
def alertP1 : String := "*¡ALERTA DE ERROR EN EL BOT!* 🤖\n\nEl Job `"

/-- Fixed fragment of the alert template between job id and patient name. -/
def alertP2 : String := "` para el paciente `"

/-- Fixed fragment of the alert template between name and attempt count. -/
def alertP3 : String := "` ha fallado después de "

/-- Fixed fragment of the alert template between attempts and error text. -/
def alertP4 : String := " intentos.\n\n*Error:* `"

/-- Fixed fragment of the alert template between error text and payload. -/
def alertP5 : String := "`\n\n*Datos enviados:*\n```\n"

/-- Fixed fragment of the alert template after the payload JSON. -/
def alertP6 : String := "\n```\nPor favor, registra al paciente manualmente."

/-- The Telegram alert text built in the `worker.on('failed')` handler of
`src/server.js` (template literal, lines 94-104): the fixed fragments
around the job id, the `nombre` field (or `N/A`), the attempt count, the
error message, and the payload JSON. -/
def alertMessage (jid : String) (data : Payload) (o : JobOpts)
    (errMsg : String) : String :=
  alertP1 ++
    (jid ++
      (alertP2 ++
        (nombreOrNA data ++
          (alertP3 ++
            (toString o.attempts ++
              (alertP4 ++
                (errMsg ++
                  (alertP5 ++
                    (jsonStringify data ++ alertP6)))))))))

/-- The `worker.on('failed')` handler: logs, and sends the Telegram alert
only when the job has exhausted its configured attempts
(`job.attemptsMade >= job.opts.attempts`).  Returns the message sent, if
any. -/
def onFailed (job : QueueJob) (errMsg : String) : Option String :=
  if job.attemptsMade ≥ job.opts.attempts then
    some (alertMessage job.id job.data job.opts errMsg)
  else none

/-- Observable outcome of running one job to a terminal state through the
queue retry loop. -/
structure RunLog where
  attemptsExecuted : Nat
  delays : List Nat
  escalations : List String
  completed : Bool
  failedTerminal : Bool
deriving DecidableEq, Repr

/-- Modelled from the spec: the queue library retry loop (spec §4.1).
`made` attempts have already failed, `rem` attempts remain.  Each attempt
`k = made + 1` runs the processor (`f k`); on success the job completes and
is purged; on failure the worker `failed` event fires (possibly escalating
via `onFailed`), and if attempts remain the retry is scheduled after
`backoffDelayFor o k`. -/
def runJobAux (jid : String) (data : Payload) (o : JobOpts)
    (f : Nat → Except JsError Unit) : Nat → Nat → RunLog
  | made, 0 =>
    { attemptsExecuted := made, delays := [], escalations := []
      completed := false, failedTerminal := true }
  | made, rem + 1 =>
    let k := made + 1
    match f k with
    | .ok _ =>
      { attemptsExecuted := k, delays := [], escalations := []
        completed := true, failedTerminal := false }
    | .error e =>
      let esc :=
        match onFailed ⟨jid, "nuevo-paciente", data, o, k⟩ e.message with
        | some m => [m]
        | none => []
      match rem with
      | 0 =>
        { attemptsExecuted := k, delays := [], escalations := esc
          completed := false, failedTerminal := true }
      | rem' + 1 =>
        let tail := runJobAux jid data o f k (rem' + 1)
        { attemptsExecuted := tail.attemptsExecuted
          delays := backoffDelayFor o k :: tail.delays
          escalations := esc ++ tail.escalations
          completed := tail.completed
          failedTerminal := tail.failedTerminal }

/-- Run a freshly enqueued job (no attempts made yet) to a terminal state
under options `o`, where `f k` is the outcome of the `k`-th processing
attempt. -/
def runJob (jid : String) (data : Payload) (o : JobOpts)
    (f : Nat → Except JsError Unit) : RunLog :=
  runJobAux jid data o f 0 o.attempts

/-- The JSON body of an HTTP response produced by the
`/crear-paciente` handler, together with its status code. -/
structure HTTPResponse where
  status : Nat
  ok : Bool
  message : Option String
  error : Option String
  id : Option String
deriving DecidableEq, Repr

/-- The `401 {ok:false,error:"Invalid secret"}` response. -/
def invalidSecretResp : HTTPResponse :=
  { status := 401, ok := false, message := none
    error := some "Invalid secret", id := none }

/-- A job record as enqueued by `pacienteQueue.add`:
name, payload, options, assigned id. -/
structure EnqueuedJob where
  name : String
  data : Payload
  opts : JobOpts
  id : String
deriving DecidableEq, Repr

/-- The body-validation and enqueue phase of the `/crear-paciente` handler
(the `try` block after the secret check, `src/server.js` lines 167-198):
empty or missing body gives 400; otherwise the job is enqueued with
`pacienteJobOpts` and 202 is returned with the new job id; an enqueue
failure gives 500. -/
def bodyPhase (body : Option Payload) (enq : Except JsError String) :
    HTTPResponse × List EnqueuedJob :=
  match body with
  | none =>
    ({ status := 400, ok := false, message := none
       error := some "Empty body", id := none }, [])
  | some datos =>
    if isEmptyPayload datos then
      ({ status := 400, ok := false, message := none
         error := some "Empty body", id := none }, [])
    else
      match enq with
      | .error _ =>
        ({ status := 500, ok := false, message := none
           error := some "Error al encolar la tarea", id := none }, [])
      | .ok jid =>
        ({ status := 202, ok := true, message := some "Tarea encolada"
           error := none, id := some jid },
         [⟨"nuevo-paciente", datos, pacienteJobOpts, jid⟩])

/-- The `POST /crear-paciente` handler (`src/server.js` lines 159-199).
`env` is `process.env.WEBHOOK_SECRET` (`none` when unset), `header` the
`X-Webhook-Secret` request header, `body` the parsed JSON body, and `enq`
the outcome of the durable enqueue (`.ok id` or a persistence error).
The secret check reads `req.header(...) || ""` and rejects when
`!process.env.WEBHOOK_SECRET || secret !== process.env.WEBHOOK_SECRET`. -/
def crearPaciente (env : Option String) (header : Option String)
    (body : Option Payload) (enq : Except JsError String) :
    HTTPResponse × List EnqueuedJob :=
  let secret := header.getD ""
  if env = none ∨ env = some "" ∨ env ≠ some secret then
    (invalidSecretResp, [])
  else
    bodyPhase body enq

/-- The environment of one `loginToIsiClinic` call: the outcome of each
external interaction of the login sequence in `src/isiclinic.js`.
`logoAppearsAt` / `loginInputAppearsAt` give the time (ms after the race is
armed) at which each watched selector becomes visible, `none` meaning it
never does within the session. -/
structure LoginWorld where
  gotoLogin : Except JsError Unit
  fillUser : Except JsError Unit
  fillPass : Except JsError Unit
  clickSubmit : Except JsError Unit
  logoAppearsAt : Option Nat
  loginInputAppearsAt : Option Nat
  networkIdle : Except JsError Unit

/-- The instant at which a `waitForSelector` promise settles: the time the
selector appears, capped by the timeout at which the promise rejects. -/
def settleAt (appears : Option Nat) (timeoutMs : Nat) : Nat :=
  match appears with
  | some t => if t ≤ timeoutMs then t else timeoutMs
  | none => timeoutMs

/-- Whether the `waitForSelector` promise settles by resolving (the selector
appeared within the timeout) rather than by a timeout rejection. -/
def settlesResolved (appears : Option Nat) (timeoutMs : Nat) : Bool :=
  match appears with
  | some t => t ≤ timeoutMs
  | none => false

/-- The error thrown by the failure branch of the login race. -/
def loginFailedError : JsError :=
  ⟨"Login falló: Sigue visible el formulario de login."⟩

/-- The rejection of a `waitForSelector` whose 30s timeout expires. -/
def raceTimeoutError : JsError :=
  ⟨"TimeoutError: Timeout 30000ms exceeded."⟩

/-- The `Promise.race` of `src/isiclinic.js` lines 79-91: a success
detector (logo visible) against a failure detector (login input still
visible), both bounded by 30000 ms.  The first promise to settle wins;
a tie goes to the first element of the race array (the success detector).
Resolution of the failure detector throws `loginFailedError`. -/
def loginRace (w : LoginWorld) : Except JsError Unit :=
  let sT := settleAt w.logoAppearsAt 30000
  let fT := settleAt w.loginInputAppearsAt 30000
  if sT ≤ fT then
    if settlesResolved w.logoAppearsAt 30000 then .ok ()
    else .error raceTimeoutError
  else
    if settlesResolved w.loginInputAppearsAt 30000 then .error loginFailedError
    else .error raceTimeoutError

/-- `loginToIsiClinic` (`src/isiclinic.js` lines 63-97): navigate to the
login page, fill credentials, submit, run the detector race, then wait for
network idle. -/
def loginToIsiClinic (w : LoginWorld) : Except JsError Unit :=
  match w.gotoLogin with
  | .error e => .error e
  | .ok _ =>
  match w.fillUser with
  | .error e => .error e
  | .ok _ =>
  match w.fillPass with
  | .error e => .error e
  | .ok _ =>
  match w.clickSubmit with
  | .error e => .error e
  | .ok _ =>
  match loginRace w with
  | .error e => .error e
  | .ok _ => w.networkIdle

/-- Whether a form field is populated with `page.fill` or with
`page.selectOption`. -/
inductive FillKind where
  | fillText : FillKind
  | selectOption : FillKind
deriving DecidableEq, Repr

/-- One supported form field: the payload key it is read from, the CSS
selector written to, and the operation used. -/
structure FieldSpec where
  key : String
  selector : String
  kind : FillKind
deriving DecidableEq, Repr

/-- The hard-coded form-layout order of `rellenarFormularioIsi`
(`src/isiclinic.js` lines 161-175). -/
def formFields : List FieldSpec :=
  [⟨"nombre", "#Tnombre", .fillText⟩,
   ⟨"apellidos", "#Tapellidos", .fillText⟩,
   ⟨"telefono", "#Tmovil", .fillText⟩,
   ⟨"email", "#Temail", .fillText⟩,
   ⟨"comentario", "#Tcomentario", .fillText⟩,
   ⟨"tratamiento", "#Ttratamiento", .fillText⟩,
   ⟨"fuente", "#Tfuente", .fillText⟩,
   ⟨"dni", "#TCIF", .fillText⟩,
   ⟨"fdn", "#Tfechadenacimiento", .fillText⟩,
   ⟨"sexo", "#Tsexo", .selectOption⟩,
   ⟨"direccion", "#Tdireccion", .fillText⟩,
   ⟨"cp", "#Tcp", .fillText⟩,
   ⟨"poblacion", "#Tpoblacion", .fillText⟩,
   ⟨"provincia", "#Tprovincia", .fillText⟩,
   ⟨"pais", "#Tpais", .fillText⟩]

/-- Observable side effects of one automation-session invocation.
`browsersLaunched` counts browser instances created by `chromium.launch`;
`browserCloses` counts `browser.close()` calls. -/
structure Trace where
  fills : List (String × String) := []
  screenshotAttempts : List String := []
  screenshotsSaved : List String := []
  browsersLaunched : Nat := 0
  browserCloses : Nat := 0
deriving DecidableEq, Repr

/-- The environment of one exported automation call: outcomes of the two
browser-creation steps (`chromium.launch`, then `browser.newPage`), login
steps, navigation, anchor wait, each field write, and each screenshot
capture (by file prefix). -/
structure FormWorld where
  chromiumLaunch : Except JsError Unit
  newPage : Except JsError Unit
  login : LoginWorld
  gotoNew : Except JsError Unit
  waitAnchor : Except JsError Unit
  fillResult : String → Except JsError Unit
  screenshot : String → Except JsError Unit

/-- `launchBrowser` (`src/isiclinic.js` lines 26-31): awaits
`chromium.launch()`, then `browser.newPage()`.  Returns the step outcome
together with whether a browser instance now exists: `true` as soon as
`chromium.launch` succeeded, even when `newPage` then fails. -/
def launchBrowser (w : FormWorld) : Except JsError Unit × Bool :=
  match w.chromiumLaunch with
  | .error e => (.error e, false)
  | .ok _ =>
    match w.newPage with
    | .error e => (.error e, true)
    | .ok _ => (.ok (), true)

/-- `takeScreenshot` (`src/isiclinic.js` lines 39-57): attempts the capture
and swallows any capture error (logging it), so it always returns control
normally.  The trace records the attempt, and the saved file only when the
capture succeeded. -/
def takeScreenshot (w : FormWorld) (pfx : String) (tr : Trace) : Trace :=
  let tr' := { tr with screenshotAttempts := tr.screenshotAttempts ++ [pfx] }
  match w.screenshot pfx with
  | .ok _ => { tr' with screenshotsSaved := tr'.screenshotsSaved ++ [pfx] }
  | .error _ => tr'

/-- The field-population sequence of `rellenarFormularioIsi`: for each spec
in order, write the field only when the payload value is truthy
(`if (datos.x) await page.fill(...)`); a write error aborts the sequence. -/
def fillFieldsAux (w : FormWorld) (datos : Payload) :
    List FieldSpec → List (String × String) →
    Except JsError Unit × List (String × String)
  | [], acc => (.ok (), acc)
  | fs :: rest, acc =>
    let v := getField datos fs.key
    if v.truthy then
      match w.fillResult fs.selector with
      | .error e => (.error e, acc)
      | .ok _ => fillFieldsAux w datos rest (acc ++ [(fs.selector, v.jsToString)])
    else fillFieldsAux w datos rest acc

/-- The fills that a fully successful population performs: the form-layout
order restricted to the truthy payload fields. -/
def expectedFills (datos : Payload) : List (String × String) :=
  formFields.filterMap fun fs =>
    let v := getField datos fs.key
    if v.truthy then some (fs.selector, v.jsToString) else none

/-- The result object returned by `rellenarFormularioIsi` on success. -/
structure FormResult where
  ok : Bool
  datos_enviados : Payload
deriving DecidableEq, Repr

/-- The `try` block of `rellenarFormularioIsi` (`src/isiclinic.js` lines
146-187): login, navigate to the new-patient page, wait for the anchor
field, populate the fields, take the success screenshot, and return
`{ok: true, datos_enviados: datos}`. -/
def runTry (w : FormWorld) (datos : Payload) :
    Except JsError FormResult × Trace :=
  match loginToIsiClinic w.login with
  | .error e => (.error e, {})
  | .ok _ =>
  match w.gotoNew with
  | .error e => (.error e, {})
  | .ok _ =>
  match w.waitAnchor with
  | .error e => (.error e, {})
  | .ok _ =>
  match fillFieldsAux w datos formFields [] with
  | (.error e, fls) => (.error e, { fills := fls })
  | (.ok _, fls) =>
    let tr := takeScreenshot w "paciente_rellenado" { fills := fls }
    (.ok ⟨true, datos⟩, tr)

/-- `rellenarFormularioIsi` (`src/isiclinic.js` lines 143-200):
`launchBrowser` is awaited before the `try`/`finally`, so a failure there
propagates without the `finally` running — in particular a `newPage`
failure after a successful `chromium.launch` leaves the launched browser
open.  Otherwise the `try` block runs; on error a best-effort
`formulario_error` screenshot is taken and the original error re-thrown;
the `finally` closes the browser. -/
def rellenarFormularioIsi (w : FormWorld) (datos : Payload) :
    Except JsError FormResult × Trace :=
  match launchBrowser w with
  | (.error e, launched) =>
    (.error e, { browsersLaunched := if launched then 1 else 0 })
  | (.ok _, _) =>
    let res := runTry w datos
    let res2 : Except JsError FormResult × Trace :=
      match res with
      | (.ok v, tr) => (.ok v, tr)
      | (.error e, tr) => (.error e, takeScreenshot w "formulario_error" tr)
    (res2.1, { res2.2 with
      browsersLaunched := res2.2.browsersLaunched + 1
      browserCloses := res2.2.browserCloses + 1 })

/-- The result object returned by `testLogin` on success. -/
structure TestResult where
  ok : Bool
  message : String
deriving DecidableEq, Repr

/-- The `try` block of `testLogin` (`src/isiclinic.js` lines 109-125):
login, navigate, wait for `#Tnombre`, fill the two demo fields, take the
success screenshot. -/
def runTestTry (w : FormWorld) : Except JsError TestResult × Trace :=
  match loginToIsiClinic w.login with
  | .error e => (.error e, {})
  | .ok _ =>
  match w.gotoNew with
  | .error e => (.error e, {})
  | .ok _ =>
  match w.waitAnchor with
  | .error e => (.error e, {})
  | .ok _ =>
  match w.fillResult "#Tnombre" with
  | .error e => (.error e, {})
  | .ok _ =>
  match w.fillResult "#Tapellidos" with
  | .error e => (.error e, { fills := [("#Tnombre", "Test-Alía")] })
  | .ok _ =>
    let tr := takeScreenshot w "test_login_success"
      { fills := [("#Tnombre", "Test-Alía"), ("#Tapellidos", "Test-Buchar")] }
    (.ok ⟨true, "Test de login y formulario OK"⟩, tr)

/-- `testLogin` (`src/isiclinic.js` lines 106-136): `launchBrowser` is
awaited before the `try`/`finally` (same leak path as
`rellenarFormularioIsi` when `newPage` fails after a successful launch);
otherwise the `try` block runs; on error a `test_login_error` screenshot
is taken and the error re-thrown; the `finally` closes the browser. -/
def testLogin (w : FormWorld) : Except JsError TestResult × Trace :=
  match launchBrowser w with
  | (.error e, launched) =>
    (.error e, { browsersLaunched := if launched then 1 else 0 })
  | (.ok _, _) =>
    let res := runTestTry w
    let res2 : Except JsError TestResult × Trace :=
      match res with
      | (.ok v, tr) => (.ok v, tr)
      | (.error e, tr) => (.error e, takeScreenshot w "test_login_error" tr)
    (res2.1, { res2.2 with
      browsersLaunched := res2.2.browsersLaunched + 1
      browserCloses := res2.2.browserCloses + 1 })

/-- Outcome of one Task Processor invocation: result handed back to the
queue, automation trace, and the structured log entries, each carrying the
payload snapshot it logs. -/
structure WorkerOutcome where
  result : Except JsError FormResult
  trace : Trace
  logEntries : List (String × Payload)

/-- The BullMQ worker processor (`src/server.js` lines 41-62): runs
`rellenarFormularioIsi(job.data)`, logs per attempt, returns the result on
success, and on failure logs and re-throws the same error. -/
def workerProcess (w : FormWorld) (datos : Payload) : WorkerOutcome :=
  let r := rellenarFormularioIsi w datos
  match r.1 with
  | .ok v =>
    ⟨.ok v, r.2,
      [("Iniciando procesamiento de paciente de la cola...", datos),
       ("Paciente procesado con ÉXITO", datos)]⟩
  | .error e =>
    ⟨.error e, r.2,
      [("Iniciando procesamiento de paciente de la cola...", datos),
       ("Error procesando paciente de la cola", datos)]⟩

/-- Remove every binding of `key` from a payload: the object as if the
property had never been present. -/
def eraseKey (p : Payload) (key : String) : Payload :=
  p.filter fun q => q.1 != key

/-- A login environment in which every step succeeds and only the
post-authentication logo ever becomes visible. -/
def allOkLogin : LoginWorld :=
  { gotoLogin := .ok (), fillUser := .ok (), fillPass := .ok ()
    clickSubmit := .ok (), logoAppearsAt := some 1000
    loginInputAppearsAt := none, networkIdle := .ok () }

/-- An automation environment in which every external interaction
succeeds. -/
def allOkWorld : FormWorld :=
  { chromiumLaunch := .ok (), newPage := .ok (), login := allOkLogin
    gotoNew := .ok (), waitAnchor := .ok ()
    fillResult := fun _ => .ok (), screenshot := fun _ => .ok () }

/-- A login environment whose credentials are rejected: the login input
stays visible (reappears at 2000 ms) and the logo never appears. -/
def authFailLogin : LoginWorld :=
  { gotoLogin := .ok (), fillUser := .ok (), fillPass := .ok ()
    clickSubmit := .ok (), logoAppearsAt := none
    loginInputAppearsAt := some 2000, networkIdle := .ok () }

/-- A login environment where the logo appears first (1000 ms) while the
login input also becomes visible later (5000 ms): residual DOM state after
a successful authentication. -/
def authOkLogin : LoginWorld :=
  { gotoLogin := .ok (), fillUser := .ok (), fillPass := .ok ()
    clickSubmit := .ok (), logoAppearsAt := some 1000
    loginInputAppearsAt := some 5000, networkIdle := .ok () }

/-- An automation environment whose initial navigation fails and whose
screenshot capture also fails (disk error). -/
def navFailWorld : FormWorld :=
  { chromiumLaunch := .ok (), newPage := .ok ()
    login := { allOkLogin with
      gotoLogin := .error ⟨"NavigationError: Timeout 60000ms exceeded."⟩ }
    gotoNew := .ok (), waitAnchor := .ok ()
    fillResult := fun _ => .ok ()
    screenshot := fun _ => .error ⟨"EACCES: permission denied"⟩ }

/-- An automation environment where `chromium.launch` succeeds but
`browser.newPage` rejects: a browser instance exists, yet the error
escapes before the `try`/`finally` is entered. -/
def newPageFailWorld : FormWorld :=
  { chromiumLaunch := .ok ()
    newPage := .error ⟨"Target page, context or browser has been closed"⟩
    login := allOkLogin, gotoNew := .ok (), waitAnchor := .ok ()
    fillResult := fun _ => .ok (), screenshot := fun _ => .ok () }

/-- A `waitForSelector` settles no later than its timeout. -/
theorem settleAt_le (appears : Option Nat) (timeoutMs : Nat) :
    settleAt appears timeoutMs ≤ timeoutMs := by
  unfold settleAt
  split
  · split <;> omega
  · omega

/-- A selector appearing within the timeout settles at its appearance
time. -/
theorem settleAt_some_of_le (t timeoutMs : Nat) (h : t ≤ timeoutMs) :
    settleAt (some t) timeoutMs = t := by
  simp [settleAt, h]

/-- A selector appearing within the timeout settles by resolving. -/
theorem settlesResolved_some_of_le (t timeoutMs : Nat) (h : t ≤ timeoutMs) :
    settlesResolved (some t) timeoutMs = true := by
  simp [settlesResolved, h]

/-- `takeScreenshot` never closes or opens a browser. -/
theorem takeScreenshot_browserCloses (w : FormWorld) (pfx : String)
    (tr : Trace) :
    (takeScreenshot w pfx tr).browserCloses = tr.browserCloses := by
  unfold takeScreenshot
  split <;> rfl

/-- `takeScreenshot` records exactly one new capture attempt. -/
theorem takeScreenshot_attempts (w : FormWorld) (pfx : String) (tr : Trace) :
    (takeScreenshot w pfx tr).screenshotAttempts =
      tr.screenshotAttempts ++ [pfx] := by
  unfold takeScreenshot
  split <;> rfl

/-- `takeScreenshot` performs no form fills. -/
theorem takeScreenshot_fills (w : FormWorld) (pfx : String) (tr : Trace) :
    (takeScreenshot w pfx tr).fills = tr.fills := by
  unfold takeScreenshot
  split <;> rfl

/-- The `try` block of `rellenarFormularioIsi` never closes the browser. -/
theorem runTry_browserCloses (w : FormWorld) (datos : Payload) :
    (runTry w datos).2.browserCloses = 0 := by
  unfold runTry
  split
  · rfl
  · split
    · rfl
    · split
      · rfl
      · split
        · rfl
        · rw [takeScreenshot_browserCloses]

/-- The `try` block of `testLogin` never closes the browser. -/
theorem runTestTry_browserCloses (w : FormWorld) :
    (runTestTry w).2.browserCloses = 0 := by
  unfold runTestTry
  split
  · rfl
  · split
    · rfl
    · split
      · rfl
      · split
        · rfl
        · split
          · rfl
          · rw [takeScreenshot_browserCloses]

/-- When every field write succeeds, the population sequence appends, in
spec-list order, exactly the truthy fields. -/
theorem fillFieldsAux_ok (w : FormWorld) (datos : Payload)
    (hw : ∀ sel, w.fillResult sel = .ok ()) :
    ∀ (l : List FieldSpec) (acc : List (String × String)),
      fillFieldsAux w datos l acc =
        (.ok (), acc ++ l.filterMap fun fs =>
          let v := getField datos fs.key
          if v.truthy then some (fs.selector, v.jsToString) else none) := by
  intro l
  induction l with
  | nil => intro acc; simp [fillFieldsAux]
  | cons fs rest ih =>
    intro acc
    unfold fillFieldsAux
    dsimp only
    by_cases ht : (getField datos fs.key).truthy
    · rw [if_pos ht, hw fs.selector, ih]
      simp [ht]
    · rw [if_neg ht, ih]
      simp [ht]

/-- When both browser-creation steps succeed, `launchBrowser` resolves
with a browser instance in hand. -/
theorem launchBrowser_ok (w : FormWorld) (h1 : w.chromiumLaunch = .ok ())
    (h2 : w.newPage = .ok ()) : launchBrowser w = (.ok (), true) := by
  unfold launchBrowser
  rw [h1, h2]

/-- Once both browser-creation steps succeed, the browser of
`rellenarFormularioIsi` is closed exactly once on success, automation
failure and screenshot failure alike. -/
theorem rellenar_browserCloses (w : FormWorld) (datos : Payload)
    (hl1 : w.chromiumLaunch = .ok ()) (hl2 : w.newPage = .ok ()) :
    (rellenarFormularioIsi w datos).2.browserCloses = 1 := by
  unfold rellenarFormularioIsi
  rw [launchBrowser_ok w hl1 hl2]
  dsimp only
  rcases hrt : runTry w datos with ⟨r, tr⟩
  have htr : tr.browserCloses = 0 := by
    have h2 := runTry_browserCloses w datos
    rw [hrt] at h2
    exact h2
  cases r with
  | ok v => simp [htr]
  | error e => simp [takeScreenshot_browserCloses, htr]

/-- Once both browser-creation steps succeed, the browser of `testLogin`
is closed exactly once on every path. -/
theorem testLogin_browserCloses (w : FormWorld)
    (hl1 : w.chromiumLaunch = .ok ()) (hl2 : w.newPage = .ok ()) :
    (testLogin w).2.browserCloses = 1 := by
  unfold testLogin
  rw [launchBrowser_ok w hl1 hl2]
  dsimp only
  rcases hrt : runTestTry w with ⟨r, tr⟩
  have htr : tr.browserCloses = 0 := by
    have h2 := runTestTry_browserCloses w
    rw [hrt] at h2
    exact h2
  cases r with
  | ok v => simp [htr]
  | error e => simp [takeScreenshot_browserCloses, htr]

/-- On a fully successful session the fills recorded by
`rellenarFormularioIsi` are exactly `expectedFills`. -/
theorem rellenar_fills_ok (w : FormWorld) (datos : Payload)
    (hl1 : w.chromiumLaunch = .ok ()) (hl2 : w.newPage = .ok ())
    (hlog : loginToIsiClinic w.login = .ok ())
    (hg : w.gotoNew = .ok ()) (ha : w.waitAnchor = .ok ())
    (hw : ∀ sel, w.fillResult sel = .ok ()) :
    (rellenarFormularioIsi w datos).2.fills = expectedFills datos := by
  unfold rellenarFormularioIsi
  rw [launchBrowser_ok w hl1 hl2]
  dsimp only
  unfold runTry
  rw [hlog, hg, ha, fillFieldsAux_ok w datos hw formFields []]
  dsimp only
  rw [takeScreenshot_fills]
  simp [expectedFills]

/-- A job that completes within the attempt budget triggers no
escalation: the `onFailed` guard rejects every earlier, non-final
failure. -/
theorem runJobAux_completed_no_esc (jid : String) (data : Payload)
    (o : JobOpts) (f : Nat → Except JsError Unit) :
    ∀ (rem made : Nat), made + rem ≤ o.attempts →
      (runJobAux jid data o f made rem).completed = true →
      (runJobAux jid data o f made rem).escalations = [] := by
  intro rem
  induction rem with
  | zero =>
    intro made _ hc
    simp [runJobAux] at hc
  | succ n ih =>
    intro made hle hc
    unfold runJobAux at hc ⊢
    dsimp only at hc ⊢
    cases hf : f (made + 1) with
    | ok v => rfl
    | error e =>
      rw [hf] at hc
      dsimp only at hc ⊢
      cases n with
      | zero => simp at hc
      | succ m =>
        dsimp only at hc ⊢
        have hesc :
            onFailed ⟨jid, "nuevo-paciente", data, o, made + 1⟩ e.message =
              none := by
          unfold onFailed
          rw [if_neg (by omega : ¬ made + 1 ≥ o.attempts)]
        rw [hesc]
        dsimp only
        have h2 := ih (made + 1) (by omega) hc
        simp [h2]

/-- `getField` after erasing a key: the erased key reads as absent, every
other key is unchanged. -/
theorem getField_eraseKey (p : Payload) (key k : String) :
    getField (eraseKey p key) k =
      if k = key then JSVal.undefined else getField p k := by
  induction p with
  | nil =>
    unfold eraseKey getField
    simp only [List.filter_nil]
    split <;> rfl
  | cons q rest ih =>
    rcases q with ⟨qk, qv⟩
    by_cases hq : qk = key
    · have hdrop : eraseKey ((qk, qv) :: rest) key = eraseKey rest key := by
        unfold eraseKey
        rw [List.filter_cons_of_neg]
        simp [hq]
      rw [hdrop, ih]
      by_cases hk : k = key
      · rw [if_pos hk, if_pos hk]
      · rw [if_neg hk, if_neg hk]
        show getField rest k = if qk = k then qv else getField rest k
        rw [if_neg fun hh => hk (hh.symm.trans hq)]
    · have hkeep :
          eraseKey ((qk, qv) :: rest) key = (qk, qv) :: eraseKey rest key := by
        unfold eraseKey
        rw [List.filter_cons_of_pos]
        simp [hq]
      rw [hkeep]
      show (if qk = k then qv else getField (eraseKey rest key) k) =
        if k = key then JSVal.undefined else
          if qk = k then qv else getField rest k
      by_cases hqk : qk = k
      · have hk : ¬ k = key := fun hh => hq (hqk.trans hh)
        rw [if_pos hqk, if_neg hk, if_pos hqk]
      · rw [if_neg hqk, ih]
        by_cases hk : k = key
        · rw [if_pos hk, if_pos hk]
        · rw [if_neg hk, if_neg hk, if_neg hqk]

/-- `expectedFills` depends only on the truthiness and (when truthy) the
value of each field, not on the payload representation. -/
theorem expectedFills_congr (d1 d2 : Payload)
    (ht : ∀ k, (getField d1 k).truthy = (getField d2 k).truthy)
    (hv : ∀ k, (getField d1 k).truthy = true →
      getField d1 k = getField d2 k) :
    expectedFills d1 = expectedFills d2 := by
  unfold expectedFills
  apply List.filterMap_congr
  intro fs _
  dsimp only
  by_cases h : (getField d1 fs.key).truthy
  · rw [if_pos h, ← ht fs.key, if_pos h, hv fs.key h]
  · rw [if_neg h, ← ht fs.key, if_neg h]

/-- The secret check rejects whenever the effective header secret does not
pass `!WEBHOOK_SECRET || secret !== WEBHOOK_SECRET`. -/
theorem crearPaciente_reject (env header : Option String)
    (body : Option Payload) (enq : Except JsError String)
    (hc : env = none ∨ env = some "" ∨ env ≠ some (header.getD "")) :
    crearPaciente env header body enq = (invalidSecretResp, []) := by
  unfold crearPaciente
  rw [if_pos hc]

/-- With a non-empty configured secret and a matching header the handler
proceeds to the body-validation phase. -/
theorem crearPaciente_secret_ok (s : String) (env header : Option String)
    (body : Option Payload) (enq : Except JsError String)
    (hs : env = some s) (hne : s ≠ "") (hh : header = some s) :
    crearPaciente env header body enq = bodyPhase body enq := by
  unfold crearPaciente
  have hc : ¬ (env = none ∨ env = some "" ∨ env ≠ some (header.getD "")) := by
    rw [hs, hh]
    simp [hne]
  rw [if_neg hc]

/-- C1: every job is enqueued with the retry policy maxAttempts = 3 and
exponential backoff with base 5000 ms; the delay scheduled before retry k
is 5000 * 2 ^ (k - 1) (5 s before the 2nd attempt, 10 s before the 3rd);
a job whose automation raises an error on every attempt is executed
exactly 3 times and then becomes terminal. -/
theorem c1_enqueue_retry_policy :
    (∀ env header body enq j, j ∈ (crearPaciente env header body enq).2 →
      j.opts = pacienteJobOpts) ∧
    pacienteJobOpts.attempts = 3 ∧
    pacienteJobOpts.backoffType = "exponential" ∧
    pacienteJobOpts.backoffDelay = 5000 ∧
    (∀ k, 1 ≤ k → backoffDelayFor pacienteJobOpts k = 5000 * 2 ^ (k - 1)) ∧
    (∀ jid data f, (∀ k, ∃ e, f k = Except.error e) →
      (runJob jid data pacienteJobOpts f).attemptsExecuted = 3 ∧
      (runJob jid data pacienteJobOpts f).delays = [5000, 10000] ∧
      (runJob jid data pacienteJobOpts f).completed = false ∧
      (runJob jid data pacienteJobOpts f).failedTerminal = true) := by
  refine ⟨?_, rfl, rfl, rfl, ?_, ?_⟩
  · intro env header body enq j hj
    by_cases hc : env = none ∨ env = some "" ∨ env ≠ some (header.getD "")
    · rw [crearPaciente_reject env header body enq hc] at hj
      simp at hj
    · simp only [crearPaciente, if_neg hc] at hj
      unfold bodyPhase at hj
      rcases body with _ | datos
      · simp at hj
      · dsimp only at hj
        split at hj
        · simp at hj
        · cases enq with
          | error e => simp at hj
          | ok jid =>
            simp at hj
            simp [hj]
  · intro k _
    simp [backoffDelayFor, pacienteJobOpts]
  · intro jid data f hf
    obtain ⟨e1, h1⟩ := hf 1
    obtain ⟨e2, h2⟩ := hf 2
    obtain ⟨e3, h3⟩ := hf 3
    simp [runJob, runJobAux, pacienteJobOpts, h1, h2, h3, onFailed,
      backoffDelayFor]

/-- C1 witness: at a concrete enqueue and a concrete always-failing
processor, the policy and run facts evaluate as stated. -/
theorem c1_enqueue_retry_policy_witness :
    (⟨"nuevo-paciente", [("nombre", JSVal.vstr "Ana")], pacienteJobOpts,
      "1"⟩ : EnqueuedJob).opts = pacienteJobOpts ∧
    backoffDelayFor pacienteJobOpts 2 = 5000 * 2 ^ (2 - 1) ∧
    (runJob "1" [("nombre", JSVal.vstr "Ana")] pacienteJobOpts
      (fun _ => Except.error ⟨"boom"⟩)).attemptsExecuted = 3 ∧
    (runJob "1" [("nombre", JSVal.vstr "Ana")] pacienteJobOpts
      (fun _ => Except.error ⟨"boom"⟩)).delays = [5000, 10000] := by
  obtain ⟨hjobs, _, _, _, hdel, hrun⟩ := c1_enqueue_retry_policy
  refine ⟨?_, hdel 2 (by omega), ?_, ?_⟩
  · exact hjobs (some "s") (some "s") (some [("nombre", JSVal.vstr "Ana")])
      (Except.ok "1") _ (by decide)
  · exact (hrun "1" [("nombre", JSVal.vstr "Ana")]
      (fun _ => Except.error ⟨"boom"⟩) (fun k => ⟨⟨"boom"⟩, rfl⟩)).1
  · exact (hrun "1" [("nombre", JSVal.vstr "Ana")]
      (fun _ => Except.error ⟨"boom"⟩) (fun k => ⟨⟨"boom"⟩, rfl⟩)).2.1

/-- C2: the escalation notification is sent exactly once, and only at
terminal failure (attempts made >= configured attempts); a job that
succeeds on some attempt k <= maxAttempts never triggers escalation; the
alert text contains the job id, the payload `nombre` field (or `N/A`), the
error message, and the payload serialized as JSON. -/
theorem c2_escalation_exactly_once :
    (∀ jid data f e1 e2 e3,
      f 1 = Except.error e1 → f 2 = Except.error e2 →
      f 3 = Except.error e3 →
      (runJob jid data pacienteJobOpts f).escalations =
        [alertMessage jid data pacienteJobOpts e3.message]) ∧
    (∀ jid data f, (runJob jid data pacienteJobOpts f).completed = true →
      (runJob jid data pacienteJobOpts f).escalations = []) ∧
    (∀ jid data f k, 1 ≤ k → k ≤ 3 → f k = Except.ok () →
      (∀ j, 1 ≤ j → j < k → ∃ e, f j = Except.error e) →
      (runJob jid data pacienteJobOpts f).completed = true ∧
      (runJob jid data pacienteJobOpts f).escalations = []) ∧
    (∀ jid data em,
      (∃ a b, alertMessage jid data pacienteJobOpts em =
        a ++ (jid ++ b)) ∧
      (∃ a b, alertMessage jid data pacienteJobOpts em =
        a ++ (nombreOrNA data ++ b)) ∧
      (∃ a b, alertMessage jid data pacienteJobOpts em =
        a ++ (em ++ b)) ∧
      (∃ a b, alertMessage jid data pacienteJobOpts em =
        a ++ (jsonStringify data ++ b))) := by
  refine ⟨?_, ?_, ?_, ?_⟩
  · intro jid data f e1 e2 e3 h1 h2 h3
    simp [runJob, runJobAux, pacienteJobOpts, h1, h2, h3, onFailed]
  · intro jid data f hc
    unfold runJob at hc ⊢
    exact runJobAux_completed_no_esc jid data pacienteJobOpts f
      pacienteJobOpts.attempts 0 (by omega) hc
  · intro jid data f k h1 h3 hok hprev
    interval_cases k
    · simp [runJob, runJobAux, pacienteJobOpts, hok]
    · obtain ⟨e1, he1⟩ := hprev 1 (by omega) (by omega)
      simp [runJob, runJobAux, pacienteJobOpts, hok, he1, onFailed]
    · obtain ⟨e1, he1⟩ := hprev 1 (by omega) (by omega)
      obtain ⟨e2, he2⟩ := hprev 2 (by omega) (by omega)
      simp [runJob, runJobAux, pacienteJobOpts, hok, he1, he2, onFailed]
  · intro jid data em
    refine ⟨?_, ?_, ?_, ?_⟩
    · exact ⟨alertP1,
        alertP2 ++ (nombreOrNA data ++ (alertP3 ++
          (toString pacienteJobOpts.attempts ++ (alertP4 ++ (em ++
            (alertP5 ++ (jsonStringify data ++ alertP6))))))),
        by simp [alertMessage, String.append_assoc]⟩
    · exact ⟨alertP1 ++ (jid ++ alertP2),
        alertP3 ++ (toString pacienteJobOpts.attempts ++
          (alertP4 ++ (em ++ (alertP5 ++
            (jsonStringify data ++ alertP6))))),
        by simp [alertMessage, String.append_assoc]⟩
    · exact ⟨alertP1 ++ (jid ++ (alertP2 ++ (nombreOrNA data ++
          (alertP3 ++ (toString pacienteJobOpts.attempts ++ alertP4))))),
        alertP5 ++ (jsonStringify data ++ alertP6),
        by simp [alertMessage, String.append_assoc]⟩
    · exact ⟨alertP1 ++ (jid ++ (alertP2 ++ (nombreOrNA data ++
          (alertP3 ++ (toString pacienteJobOpts.attempts ++
            (alertP4 ++ (em ++ alertP5))))))),
        alertP6,
        by simp [alertMessage, String.append_assoc]⟩

/-- C2 witness: a concrete job failing all three attempts escalates with
exactly one alert, and a concrete job succeeding on its second attempt
completes with no escalation. -/
theorem c2_escalation_exactly_once_witness :
    (runJob "7" [("nombre", JSVal.vstr "Ana")] pacienteJobOpts
      (fun _ => Except.error ⟨"fallo"⟩)).escalations =
      [alertMessage "7" [("nombre", JSVal.vstr "Ana")] pacienteJobOpts
        "fallo"] ∧
    (runJob "8" [] pacienteJobOpts
      (fun k => if k = 1 then Except.error ⟨"fallo"⟩ else
        Except.ok ())).completed = true ∧
    (runJob "8" [] pacienteJobOpts
      (fun k => if k = 1 then Except.error ⟨"fallo"⟩ else
        Except.ok ())).escalations = [] := by
  obtain ⟨hterm, _, hsucc, _⟩ := c2_escalation_exactly_once
  refine ⟨?_, ?_, ?_⟩
  · exact hterm "7" _ _ ⟨"fallo"⟩ ⟨"fallo"⟩ ⟨"fallo"⟩ rfl rfl rfl
  · exact (hsucc "8" [] _ 2 (by omega) (by omega) rfl
      (fun j hj1 hj2 => by interval_cases j; exact ⟨⟨"fallo"⟩, rfl⟩)).1
  · exact (hsucc "8" [] _ 2 (by omega) (by omega) rfl
      (fun j hj1 hj2 => by interval_cases j; exact ⟨⟨"fallo"⟩, rfl⟩)).2

/-- C3: a request whose X-Webhook-Secret header does not equal the
configured secret — including whenever the configured secret is empty or
unset — is answered 401 with body ok:false, error:"Invalid secret" and
nothing is enqueued; an exact match against a (non-empty) configured
secret proceeds to body validation and enqueue. -/
theorem c3_webhook_secret_check (env header : Option String)
    (body : Option Payload) (enq : Except JsError String) :
    invalidSecretResp =
      ⟨401, false, none, some "Invalid secret", none⟩ ∧
    ((env = none ∨ env = some "") →
      crearPaciente env header body enq = (invalidSecretResp, [])) ∧
    (∀ s, env = some s → header.getD "" ≠ s →
      crearPaciente env header body enq = (invalidSecretResp, [])) ∧
    (∀ s, env = some s → s ≠ "" → header = some s →
      crearPaciente env header body enq = bodyPhase body enq) := by
  refine ⟨rfl, ?_, ?_, ?_⟩
  · intro h
    apply crearPaciente_reject
    rcases h with h | h
    · exact Or.inl h
    · exact Or.inr (Or.inl h)
  · intro s hs hne
    apply crearPaciente_reject
    right
    right
    rw [hs]
    intro hcc
    injection hcc with h
    exact hne h.symm
  · intro s hs hne hh
    exact crearPaciente_secret_ok s env header body enq hs hne hh

/-- C3 witness: concrete requests — wrong header is rejected, unset secret
is rejected, exact match proceeds to the body phase. -/
theorem c3_webhook_secret_check_witness :
    crearPaciente (some "s3cr3t") (some "wrong")
      (some [("nombre", JSVal.vstr "Ana")]) (Except.ok "1") =
      (invalidSecretResp, []) ∧
    crearPaciente none (some "anything")
      (some [("nombre", JSVal.vstr "Ana")]) (Except.ok "1") =
      (invalidSecretResp, []) ∧
    crearPaciente (some "s3cr3t") (some "s3cr3t")
      (some [("nombre", JSVal.vstr "Ana")]) (Except.ok "1") =
      bodyPhase (some [("nombre", JSVal.vstr "Ana")]) (Except.ok "1") := by
  refine ⟨?_, ?_, ?_⟩
  · exact (c3_webhook_secret_check (some "s3cr3t") (some "wrong")
      (some [("nombre", JSVal.vstr "Ana")]) (Except.ok "1")).2.2.1
      "s3cr3t" rfl (by decide)
  · exact (c3_webhook_secret_check none (some "anything")
      (some [("nombre", JSVal.vstr "Ana")]) (Except.ok "1")).2.1
      (Or.inl rfl)
  · exact (c3_webhook_secret_check (some "s3cr3t") (some "s3cr3t")
      (some [("nombre", JSVal.vstr "Ana")]) (Except.ok "1")).2.2.2
      "s3cr3t" rfl (by decide) rfl

/-- C4: the login outcome is decided by the race of the two 30 s bounded
detectors: if the still-visible login-input detector resolves strictly
before the success detector settles, the login raises the authentication
error; if the success marker resolves first, no error is raised and the
session proceeds through network quiescence regardless of when (or
whether) the login input reappears. -/
theorem c4_login_race (w : LoginWorld)
    (hg : w.gotoLogin = .ok ()) (hu : w.fillUser = .ok ())
    (hp : w.fillPass = .ok ()) (hcl : w.clickSubmit = .ok ()) :
    (∀ tf, w.loginInputAppearsAt = some tf →
      tf < settleAt w.logoAppearsAt 30000 →
      loginToIsiClinic w = .error loginFailedError) ∧
    (∀ ts, w.logoAppearsAt = some ts → ts ≤ 30000 →
      ts < settleAt w.loginInputAppearsAt 30000 →
      w.networkIdle = .ok () →
      loginToIsiClinic w = .ok ()) := by
  constructor
  · intro tf hf hlt
    have hb : tf < 30000 := lt_of_lt_of_le hlt (settleAt_le _ _)
    have hrace : loginRace w = .error loginFailedError := by
      unfold loginRace
      rw [hf, settleAt_some_of_le tf 30000 (le_of_lt hb)]
      rw [if_neg (not_le.mpr hlt)]
      rw [settlesResolved_some_of_le tf 30000 (le_of_lt hb)]
      rfl
    unfold loginToIsiClinic
    rw [hg, hu, hp, hcl, hrace]
  · intro ts hs hts hlt hn
    have hrace : loginRace w = .ok () := by
      unfold loginRace
      rw [hs, settleAt_some_of_le ts 30000 hts]
      rw [if_pos (le_of_lt hlt)]
      rw [settlesResolved_some_of_le ts 30000 hts]
      rfl
    unfold loginToIsiClinic
    rw [hg, hu, hp, hcl, hrace, hn]

/-- C4 witness: with the login input reappearing at 2 s and no logo, the
session raises the authentication error; with the logo first at 1 s and
the login input at 5 s, the session succeeds despite the residual DOM. -/
theorem c4_login_race_witness :
    loginToIsiClinic authFailLogin = .error loginFailedError ∧
    loginToIsiClinic authOkLogin = .ok () := by
  constructor
  · exact (c4_login_race authFailLogin rfl rfl rfl rfl).1 2000 rfl
      (by decide)
  · exact (c4_login_race authOkLogin rfl rfl rfl rfl).2 1000 rfl
      (by decide) (by decide) rfl

/-- C5: when the try block of rellenarFormularioIsi raises any error, a
diagnostic screenshot with prefix formulario_error is attempted (whatever
the capture outcome, including capture failure) and the original error is
re-raised unchanged. -/
theorem c5_error_screenshot_then_rethrow (w : FormWorld) (datos : Payload)
    (e : JsError) (hl1 : w.chromiumLaunch = .ok ())
    (hl2 : w.newPage = .ok ())
    (he : (runTry w datos).1 = .error e) :
    (rellenarFormularioIsi w datos).1 = .error e ∧
    (rellenarFormularioIsi w datos).2.screenshotAttempts =
      (runTry w datos).2.screenshotAttempts ++ ["formulario_error"] := by
  unfold rellenarFormularioIsi
  rw [launchBrowser_ok w hl1 hl2]
  dsimp only
  rcases hrt : runTry w datos with ⟨r, tr⟩
  rw [hrt] at he
  dsimp only at he
  subst he
  constructor
  · rfl
  · dsimp only
    rw [takeScreenshot_attempts]

/-- C5 witness: a concrete world whose navigation fails and whose
screenshot capture also fails still re-raises the navigation error and
records the error-screenshot attempt. -/
theorem c5_error_screenshot_then_rethrow_witness :
    (rellenarFormularioIsi navFailWorld []).1 =
      .error ⟨"NavigationError: Timeout 60000ms exceeded."⟩ ∧
    (rellenarFormularioIsi navFailWorld []).2.screenshotAttempts =
      (runTry navFailWorld []).2.screenshotAttempts ++
        ["formulario_error"] := by
  exact c5_error_screenshot_then_rethrow navFailWorld []
    ⟨"NavigationError: Timeout 60000ms exceeded."⟩ rfl rfl rfl

/-- C6 counterexample: a payload with `nombre` present but bound to the
empty string runs through a fully successful session, yet the field is not
filled — refuting "fills each field iff present in the payload". -/
theorem c6_present_but_empty_not_filled :
    hasKey [("nombre", JSVal.vstr "")] "nombre" = true ∧
    (rellenarFormularioIsi allOkWorld [("nombre", JSVal.vstr "")]).1 =
      Except.ok ⟨true, [("nombre", JSVal.vstr "")]⟩ ∧
    (rellenarFormularioIsi allOkWorld
      [("nombre", JSVal.vstr "")]).2.fills = [] :=
  ⟨rfl, rfl, rfl⟩

/-- C6 (amended): form population fills each supported field iff the field
is present with a truthy value — absent or falsy fields are left untouched
— and the fields are filled in the fixed hard-coded form-layout order
(`formFields`), independent of the key order of the payload mapping. -/
theorem c6_fills_fixed_order_iff_truthy (w : FormWorld)
    (datos datos' : Payload)
    (hl1 : w.chromiumLaunch = .ok ()) (hl2 : w.newPage = .ok ())
    (hlog : loginToIsiClinic w.login = .ok ())
    (hg : w.gotoNew = .ok ()) (ha : w.waitAnchor = .ok ())
    (hw : ∀ sel, w.fillResult sel = .ok ()) :
    (rellenarFormularioIsi w datos).2.fills = expectedFills datos ∧
    ((∀ k, getField datos' k = getField datos k) →
      (rellenarFormularioIsi w datos').2.fills =
        (rellenarFormularioIsi w datos).2.fills) := by
  have hfa := rellenar_fills_ok w datos hl1 hl2 hlog hg ha hw
  refine ⟨hfa, ?_⟩
  intro hsame
  have hfb := rellenar_fills_ok w datos' hl1 hl2 hlog hg ha hw
  rw [hfa, hfb]
  unfold expectedFills
  apply List.filterMap_congr
  intro fs _
  dsimp only
  rw [hsame fs.key]

/-- C6 witness: a concrete reversed-key-order payload fills the same
fields in the same fixed order. -/
theorem c6_fills_fixed_order_iff_truthy_witness :
    (rellenarFormularioIsi allOkWorld
      [("apellidos", JSVal.vstr "García"),
       ("nombre", JSVal.vstr "Ana")]).2.fills =
      expectedFills [("apellidos", JSVal.vstr "García"),
        ("nombre", JSVal.vstr "Ana")] ∧
    (rellenarFormularioIsi allOkWorld
      [("nombre", JSVal.vstr "Ana"),
       ("apellidos", JSVal.vstr "García")]).2.fills =
      (rellenarFormularioIsi allOkWorld
        [("apellidos", JSVal.vstr "García"),
         ("nombre", JSVal.vstr "Ana")]).2.fills := by
  have h := c6_fills_fixed_order_iff_truthy allOkWorld
    [("apellidos", JSVal.vstr "García"), ("nombre", JSVal.vstr "Ana")]
    [("nombre", JSVal.vstr "Ana"), ("apellidos", JSVal.vstr "García")]
    rfl rfl rfl rfl rfl (fun _ => rfl)
  refine ⟨h.1, h.2 ?_⟩
  intro k
  by_cases h1 : k = "nombre"
  · subst h1
    rfl
  · by_cases h2 : k = "apellidos"
    · subst h2
      rfl
    · have h1' : ¬ ("nombre" = k) := fun hh => h1 hh.symm
      have h2' : ¬ ("apellidos" = k) := fun hh => h2 hh.symm
      simp [getField, h1', h2']

/-- C7: once the secret check passes, an empty or missing body yields 400
with nothing enqueued, and a non-empty body yields 202 with
ok:true, message, and the id of the freshly enqueued job. -/
theorem c7_body_validation_and_enqueue (s : String)
    (header : Option String) (body : Option Payload)
    (enq : Except JsError String) (hne : s ≠ "") (hh : header = some s) :
    ((body = none ∨ body = some []) →
      crearPaciente (some s) header body enq =
        (⟨400, false, none, some "Empty body", none⟩, [])) ∧
    (∀ datos jid, body = some datos → isEmptyPayload datos = false →
      enq = Except.ok jid →
      crearPaciente (some s) header body enq =
        (⟨202, true, some "Tarea encolada", none, some jid⟩,
         [⟨"nuevo-paciente", datos, pacienteJobOpts, jid⟩])) := by
  have hok := crearPaciente_secret_ok s (some s) header body enq rfl hne hh
  constructor
  · intro hb
    rw [hok]
    rcases hb with hb | hb <;> subst hb <;> rfl
  · intro datos jid hb hdne henq
    subst hb
    subst henq
    rw [hok]
    unfold bodyPhase
    simp [hdne]

/-- C7 witness: a concrete empty body is rejected 400; a concrete
non-empty body is enqueued and acknowledged 202 with the new job id. -/
theorem c7_body_validation_and_enqueue_witness :
    crearPaciente (some "s3cr3t") (some "s3cr3t") (some [])
      (Except.ok "1") =
      (⟨400, false, none, some "Empty body", none⟩, []) ∧
    crearPaciente (some "s3cr3t") (some "s3cr3t")
      (some [("nombre", JSVal.vstr "Ana")]) (Except.ok "42") =
      (⟨202, true, some "Tarea encolada", none, some "42"⟩,
       [⟨"nuevo-paciente", [("nombre", JSVal.vstr "Ana")],
         pacienteJobOpts, "42"⟩]) := by
  constructor
  · exact (c7_body_validation_and_enqueue "s3cr3t" (some "s3cr3t")
      (some []) (Except.ok "1") (by decide) rfl).1 (Or.inr rfl)
  · exact (c7_body_validation_and_enqueue "s3cr3t" (some "s3cr3t")
      (some [("nombre", JSVal.vstr "Ana")]) (Except.ok "42")
      (by decide) rfl).2 [("nombre", JSVal.vstr "Ana")] "42" rfl rfl rfl

/-- C8: the worker returns the automation outcome unchanged — in
particular it re-throws the same error object, performing no retry of its
own (a single automation invocation per processing call) — and every log
entry carries the payload unmutated. -/
theorem c8_worker_rethrows_unchanged (w : FormWorld) (datos : Payload) :
    (workerProcess w datos).result = (rellenarFormularioIsi w datos).1 ∧
    (∀ e, (rellenarFormularioIsi w datos).1 = Except.error e →
      (workerProcess w datos).result = Except.error e) ∧
    (∀ entry ∈ (workerProcess w datos).logEntries, entry.2 = datos) ∧
    (w.chromiumLaunch = .ok () → w.newPage = .ok () →
      (workerProcess w datos).trace.browserCloses = 1) := by
  have hres :
      (workerProcess w datos).result = (rellenarFormularioIsi w datos).1 := by
    unfold workerProcess
    dsimp only
    cases h : (rellenarFormularioIsi w datos).1 with
    | ok v => rfl
    | error e => rfl
  have htrace :
      (workerProcess w datos).trace = (rellenarFormularioIsi w datos).2 := by
    unfold workerProcess
    dsimp only
    cases h : (rellenarFormularioIsi w datos).1 with
    | ok v => rfl
    | error e => rfl
  refine ⟨hres, ?_, ?_, ?_⟩
  · intro e he
    rw [hres, he]
  · intro entry hentry
    revert hentry
    unfold workerProcess
    dsimp only
    cases h : (rellenarFormularioIsi w datos).1 with
    | ok v =>
      intro hentry
      simp at hentry
      rcases hentry with h1 | h1 <;> rw [h1]
    | error e =>
      intro hentry
      simp at hentry
      rcases hentry with h1 | h1 <;> rw [h1]
  · intro hl1 hl2
    rw [htrace]
    exact rellenar_browserCloses w datos hl1 hl2

/-- C8 witness: at a concrete failing world the worker result is the same
navigation error, after exactly one automation invocation. -/
theorem c8_worker_rethrows_unchanged_witness :
    (workerProcess navFailWorld [("nombre", JSVal.vstr "Ana")]).result =
      Except.error ⟨"NavigationError: Timeout 60000ms exceeded."⟩ ∧
    (workerProcess navFailWorld
      [("nombre", JSVal.vstr "Ana")]).trace.browserCloses = 1 := by
  have h := c8_worker_rethrows_unchanged navFailWorld
    [("nombre", JSVal.vstr "Ana")]
  exact ⟨h.2.1 ⟨"NavigationError: Timeout 60000ms exceeded."⟩ rfl,
    h.2.2.2 rfl rfl⟩

/-- C9 (code bug): `launchBrowser` is awaited before the `try`/`finally`,
so when `chromium.launch` succeeds but `browser.newPage` rejects, both
`rellenarFormularioIsi` and `testLogin` propagate the error with a
launched browser that is never closed — against the claim (and the
source's own `finally` comment) that the browser is released
unconditionally.  In the all-success world, by contrast, the launched
browser is closed exactly once. -/
theorem c9_browser_leak_on_newpage_failure :
    (rellenarFormularioIsi newPageFailWorld []).1 =
      Except.error ⟨"Target page, context or browser has been closed"⟩ ∧
    (rellenarFormularioIsi newPageFailWorld []).2.browsersLaunched = 1 ∧
    (rellenarFormularioIsi newPageFailWorld []).2.browserCloses = 0 ∧
    (testLogin newPageFailWorld).1 =
      Except.error ⟨"Target page, context or browser has been closed"⟩ ∧
    (testLogin newPageFailWorld).2.browsersLaunched = 1 ∧
    (testLogin newPageFailWorld).2.browserCloses = 0 ∧
    (rellenarFormularioIsi allOkWorld []).2.browsersLaunched = 1 ∧
    (rellenarFormularioIsi allOkWorld []).2.browserCloses = 1 ∧
    (testLogin allOkWorld).2.browsersLaunched = 1 ∧
    (testLogin allOkWorld).2.browserCloses = 1 :=
  ⟨rfl, rfl, rfl, rfl, rfl, rfl, rfl, rfl, rfl, rfl⟩

/-- C10: a payload field present but bound to a falsy value (empty string,
or 0 for sexo) is skipped exactly as if it were absent: the recorded fills
equal those for the payload with the key erased. -/
theorem c10_falsy_field_skipped (w : FormWorld) (datos : Payload)
    (key : String)
    (hl1 : w.chromiumLaunch = .ok ()) (hl2 : w.newPage = .ok ())
    (hlog : loginToIsiClinic w.login = .ok ())
    (hg : w.gotoNew = .ok ()) (ha : w.waitAnchor = .ok ())
    (hw : ∀ sel, w.fillResult sel = .ok ())
    (hfalsy : (getField datos key).truthy = false) :
    (rellenarFormularioIsi w datos).2.fills =
      (rellenarFormularioIsi w (eraseKey datos key)).2.fills := by
  rw [rellenar_fills_ok w datos hl1 hl2 hlog hg ha hw,
    rellenar_fills_ok w (eraseKey datos key) hl1 hl2 hlog hg ha hw]
  apply expectedFills_congr
  · intro k
    rw [getField_eraseKey]
    by_cases hk : k = key
    · rw [if_pos hk, hk, hfalsy]
      rfl
    · rw [if_neg hk]
  · intro k htr
    rw [getField_eraseKey]
    by_cases hk : k = key
    · exfalso
      rw [hk, hfalsy] at htr
      exact Bool.false_ne_true htr
    · rw [if_neg hk]

/-- C10 witness: a payload with sexo bound to the number 0 produces
exactly the fills of the payload without sexo. -/
theorem c10_falsy_field_skipped_witness :
    (rellenarFormularioIsi allOkWorld
      [("sexo", JSVal.vnum 0), ("nombre", JSVal.vstr "Ana")]).2.fills =
      (rellenarFormularioIsi allOkWorld
        (eraseKey [("sexo", JSVal.vnum 0), ("nombre", JSVal.vstr "Ana")]
          "sexo")).2.fills :=
  c10_falsy_field_skipped allOkWorld
    [("sexo", JSVal.vnum 0), ("nombre", JSVal.vstr "Ana")] "sexo"
    rfl rfl rfl rfl rfl (fun _ => rfl) rfl
